import Mathlib

/-!
Verification development for the docx style-transfer engine in `format.py`.

The Python source works over the python-docx object model.  We embed the
observable parts of that model shallowly: documents are lists of paragraphs,
runs, tables, sections and named styles; optional properties are `Option`
values (python-docx returns `None` for an unset property).  Machine text is
`String`; Python string operations (`in`, `.lower()`, `.strip()`,
`.split` on a newline, slicing) are re-implemented over `List Char` with
Python semantics.  Lengths in inches and font sizes in points are `Rat`
(python-docx hands them out as exact rationals of EMU).  The OpenAI chat
call is a value of `Except String String`: either the response content or
the exception message.  The per-run colour assignment, which the source
wraps in a bare try/except, is modelled by a caller-supplied predicate
saying which colour values the new document accepts.
-/

namespace FormatDocs

/-- Lowercase every character, as Python `str.lower` does on the texts involved. -/
def lowerL (s : List Char) : List Char := s.map Char.toLower

/-- Whether `needle` occurs at the start of `hay`. -/
def startsWithL : List Char → List Char → Bool
  | [], _ => true
  | _ :: _, [] => false
  | a :: as, b :: bs => a == b && startsWithL as bs

/-- Python `needle in hay`: contiguous-substring occurrence. -/
def containsSub (needle : List Char) : List Char → Bool
  | [] => startsWithL needle []
  | c :: t => startsWithL needle (c :: t) || containsSub needle t

/-- Python `needle in hay` on strings (case-sensitive). -/
def pyIn (needle hay : String) : Bool := containsSub needle.data hay.data

/-- Python `not s.strip()`: the string has no non-whitespace character. -/
def pyBlank (s : String) : Bool := s.data.all Char.isWhitespace

/-- Python `s.split("\n")`: at least one piece, empty pieces kept. -/
def splitLines : List Char → List (List Char)
  | [] => [[]]
  | c :: t =>
    if c = '\n' then [] :: splitLines t
    else
      match splitLines t with
      | [] => [[c]]
      | h :: r => (c :: h) :: r

/-- Paragraph alignment values of the docx object model. -/
inductive Alignment
  | left
  | center
  | right
  | justify
deriving DecidableEq

/-- One run of a source paragraph: `run.text`, `run.bold`, `run.italic`,
`run.underline`, `run.font.name`, `run.font.size` (in points) and
`run.font.color.rgb`, each `Option` because python-docx reports unset
properties as `None`. -/
structure RunData where
  text : String
  bold : Option Bool
  italic : Option Bool
  underline : Option Bool
  fontName : Option String
  fontSizePt : Option Rat
  colorRGB : Option Nat
deriving DecidableEq

/-- One paragraph of a source document: `para.text`, `para.alignment`,
`para.style` (absent, or carrying a style name) and `para.runs`. -/
structure ParaData where
  text : String
  alignment : Option Alignment
  styleName : Option String
  runs : List RunData
deriving DecidableEq

/-- One table cell: `cell.text` and `cell.vertical_alignment` (opaque code). -/
structure CellData where
  text : String
  verticalAlignment : Option Nat
deriving DecidableEq

/-- One table: its rows of cells and the grid column count. -/
structure TableData where
  rowCells : List (List CellData)
  colCount : Nat
deriving DecidableEq

/-- One section, with its four margins in inches. -/
structure SectionData where
  topMarginIn : Rat
  bottomMarginIn : Rat
  leftMarginIn : Rat
  rightMarginIn : Rat
deriving DecidableEq

/-- A named style of a document (`doc.styles[name]`), with the font
properties the source reads from it. -/
structure StyleDef where
  name : String
  fontName : Option String
  fontSizePt : Option Rat
deriving DecidableEq

/-- The docx object model surface read by `format.py`. -/
structure DocxDocument where
  paragraphs : List ParaData
  tables : List TableData
  sections : List SectionData
  styles : List StyleDef
deriving DecidableEq

/-- An entry of a sample's `font_properties` list. -/
structure RunProps where
  text : String
  bold : Option Bool
  italic : Option Bool
  underline : Option Bool
  fontName : Option String
  fontSize : Option Rat
  color : Option Nat
deriving DecidableEq

/-- A `style_info` record built for one non-blank paragraph:
text, alignment, resolved style name and run properties. -/
structure StyleSample where
  text : String
  alignment : Option Alignment
  styleName : String
  fontProperties : List RunProps
deriving DecidableEq

/-- The `margins` sub-dictionary of the extracted `overall_style`. -/
structure MarginsInfo where
  top : Option Rat
  bottom : Option Rat
  left : Option Rat
  right : Option Rat
deriving DecidableEq

/-- The extracted `overall_style` dictionary. -/
structure OverallStyle where
  defaultFont : Option String
  defaultFontSize : Option Rat
  margins : MarginsInfo
deriving DecidableEq

/-- The extracted `table_info` record: row/column counts and cell styles. -/
structure TableInfo where
  rows : Nat
  cols : Nat
  cellStyles : List (String × Option Nat)
deriving DecidableEq

/-- The whole `formatting` dictionary returned by the extractor. -/
structure Formatting where
  paragraphs : List StyleSample
  headings : List StyleSample
  tables : List TableInfo
  overallStyle : OverallStyle
deriving DecidableEq

/-- `run_props` built for one non-blank run.  `run.font.size` is a length in
EMU whose Python truthiness is false at 0, so a zero size extracts as absent,
exactly like `None`; a colour, when present, is a nonempty hex string and is
always truthy. -/
def extractRunProps (r : RunData) : RunProps :=
  { text := r.text
    bold := r.bold
    italic := r.italic
    underline := r.underline
    fontName := r.fontName
    fontSize :=
      match r.fontSizePt with
      | some s => if s = 0 then none else some s
      | none => none
    color := r.colorRGB }

/-- `style_info` built for one paragraph: resolved style name defaults to
"Normal", and only non-blank runs contribute `run_props`. -/
def extractSample (p : ParaData) : StyleSample :=
  { text := p.text
    alignment := p.alignment
    styleName :=
      match p.styleName with
      | some n => n
      | none => "Normal"
    fontProperties := (p.runs.filter (fun r => !pyBlank r.text)).map extractRunProps }

/-- The categorisation test of the extractor:
`para.style and "Heading" in para.style.name`. -/
def isHeadingPara (p : ParaData) : Bool :=
  match p.styleName with
  | some n => pyIn "Heading" n
  | none => false

/-- `table_info` built for one table: row/column counts and per-cell
text/vertical-alignment, rows flattened in order. -/
def extractTable (t : TableData) : TableInfo :=
  { rows := t.rowCells.length
    cols := t.colCount
    cellStyles := t.rowCells.flatten.map (fun c => (c.text, c.verticalAlignment)) }

/-- Lookup of a named style, as `doc.styles[name]` guarded by `name in doc.styles`. -/
def findStyle (styles : List StyleDef) (n : String) : Option StyleDef :=
  styles.find? (fun st => st.name == n)

/-- `extract_formatting_from_docx`: build the formatting dictionary from a
reference document.  Every non-blank paragraph yields a sample, headings (by
the style-name test) and body paragraphs kept in separate ordered lists;
tables are recorded; document-wide defaults come from the "Normal" style and
the first section, each left absent when the underlying value is missing
(font size also when its length is falsy, i.e. zero). -/
def extract_formatting_from_docx (doc : DocxDocument) : Formatting :=
  let nonblank := doc.paragraphs.filter (fun p => !pyBlank p.text)
  { headings := (nonblank.filter (fun p => isHeadingPara p)).map extractSample
    paragraphs := (nonblank.filter (fun p => !isHeadingPara p)).map extractSample
    tables := doc.tables.map extractTable
    overallStyle :=
      { defaultFont := (findStyle doc.styles "Normal").bind (fun st => st.fontName)
        defaultFontSize :=
          (findStyle doc.styles "Normal").bind (fun st =>
            match st.fontSizePt with
            | some s => if s = 0 then none else some s
            | none => none)
        margins :=
          match doc.sections with
          | [] => { top := none, bottom := none, left := none, right := none }
          | s :: _ =>
            { top := some s.topMarginIn
              bottom := some s.bottomMarginIn
              left := some s.leftMarginIn
              right := some s.rightMarginIn } } }

/-- Role assigned to a target content block. -/
inductive Role
  | heading
  | body
deriving DecidableEq

/-- A paragraph of the synthesized document: its text, the explicitly set
paragraph alignment and style, and the explicitly set properties of its
single run (all `none` in a freshly added paragraph). -/
structure OutPara where
  text : String
  alignment : Option Alignment
  style : Option String
  bold : Option Bool
  italic : Option Bool
  fontName : Option String
  fontSize : Option Rat
  color : Option Nat
deriving DecidableEq

/-- The synthesized document: section margins (inches) plus paragraphs. -/
structure NewDoc where
  topMargin : Rat
  bottomMargin : Rat
  leftMargin : Rat
  rightMargin : Rat
  paragraphs : List OutPara
deriving DecidableEq

/-- The named styles available in a freshly created `docx.Document()`
(python-docx default template). -/
def newDocStyleNames : List String :=
  ["Normal", "Heading 1", "Heading 2", "Heading 3", "Heading 4", "Heading 5",
   "Heading 6", "Heading 7", "Heading 8", "Heading 9", "No Spacing", "Title",
   "Subtitle", "List Paragraph", "Quote", "Intense Quote", "List Bullet",
   "List Number", "Caption", "Body Text"]

/-- A freshly created `docx.Document()`: one section with one-inch margins,
no paragraphs. -/
def defaultNewDoc : NewDoc :=
  { topMargin := 1, bottomMargin := 1, leftMargin := 1, rightMargin := 1
    paragraphs := [] }

/-- One margin assignment guarded by Python truthiness
(`if overall_style["margins"].get("top"): ...`): an absent value and a
present value of `0` both leave the current margin unchanged. -/
def marginOf (o : Option Rat) (cur : Rat) : Rat :=
  match o with
  | some v => if v = 0 then cur else v
  | none => cur

/-- The margin-setting loop of the synthesizer, over the new document's
single section. -/
def applyMargins (m : MarginsInfo) (d : NewDoc) : NewDoc :=
  { d with
    topMargin := marginOf m.top d.topMargin
    bottomMargin := marginOf m.bottom d.bottomMargin
    leftMargin := marginOf m.left d.leftMargin
    rightMargin := marginOf m.right d.rightMargin }

/-- Classification of one content block against the response lines:
first a substring scan of all lines for the block's lowercased 20-character
text head, then the line at the block's own index, then "body". -/
def classifyOne (lines : List (List Char)) (i : Nat) (text : String) : Role :=
  let pre := lowerL (text.data.take 20)
  match lines.find? (fun line => containsSub pre (lowerL line)) with
  | some line => if containsSub "heading".data (lowerL line) then .heading else .body
  | none =>
    match lines[i]? with
    | some line => if containsSub "heading".data (lowerL line) then .heading else .body
    | none => .body

/-- The classification loop: Python `enumerate` made explicit by an index
accumulator. -/
def classifyFrom (lines : List (List Char)) : Nat → List String → List (Role × String)
  | _, [] => []
  | i, t :: ts => (classifyOne lines i t, t) :: classifyFrom lines (i + 1) ts

/-- `classified_paragraphs` built from the response lines and the block texts. -/
def classifyBlocks (lines : List (List Char)) (content : List String) :
    List (Role × String) :=
  classifyFrom lines 0 content

/-- A paragraph as added by a bare `new_doc.add_paragraph` with one run:
no explicit property set. -/
def plainOut (t : String) : OutPara :=
  { text := t, alignment := none, style := none, bold := none, italic := none
    fontName := none, fontSize := none, color := none }

/-- Application of the first `font_properties` entry (if any) to the block's
run: bold/italic when not `None`; font name and size under Python truthiness
(empty string and zero size skipped); colour assignment wrapped in
try/except, so a rejected colour leaves the run's colour as it was. -/
def applyFontProps (fps : List RunProps) (colorOk : Nat → Bool) (base : OutPara) :
    OutPara :=
  match fps with
  | [] => base
  | fp :: _ =>
    { base with
      bold :=
        match fp.bold with
        | some b => some b
        | none => base.bold
      italic :=
        match fp.italic with
        | some b => some b
        | none => base.italic
      fontName :=
        match fp.fontName with
        | some n => if n = "" then base.fontName else some n
        | none => base.fontName
      fontSize :=
        match fp.fontSize with
        | some s => if s = 0 then base.fontSize else some s
        | none => base.fontSize
      color :=
        match fp.color with
        | some c => if colorOk c then some c else base.color
        | none => base.color }

/-- The style chosen for a heading block with a reference sample: the
sample's style name when truthy and present among the new document's styles,
else the "Heading 1" fallback (which exists in the default template, so the
inner try succeeds). -/
def headingStyleChoice (ref : StyleSample) : Option String :=
  if ref.styleName != "" && newDocStyleNames.contains ref.styleName then
    some ref.styleName
  else
    some "Heading 1"

/-- Rendering of a heading block: with a sample, alignment/style/first-run
properties from `headings[0]`; with no sample, bold plus the "Heading 1"
style. -/
def renderHeading (headings : List StyleSample) (colorOk : Nat → Bool)
    (t : String) : OutPara :=
  match headings with
  | [] => { plainOut t with bold := some true, style := some "Heading 1" }
  | ref :: _ =>
    applyFontProps ref.fontProperties colorOk
      { plainOut t with alignment := ref.alignment, style := headingStyleChoice ref }

/-- Rendering of a body block: with a sample, alignment and first-run
properties from `paragraphs[0]` (no style assignment occurs in this path);
with no sample, a plain paragraph. -/
def renderBody (paras : List StyleSample) (colorOk : Nat → Bool)
    (t : String) : OutPara :=
  match paras with
  | [] => plainOut t
  | ref :: _ =>
    applyFontProps ref.fontProperties colorOk
      { plainOut t with alignment := ref.alignment }

/-- Rendering of one classified block. -/
def renderBlock (fmt : Formatting) (colorOk : Nat → Bool) (rt : Role × String) :
    OutPara :=
  match rt.1 with
  | .heading => renderHeading fmt.headings colorOk rt.2
  | .body => renderBody fmt.paragraphs colorOk rt.2

/-- `content` extracted from the target document: its non-blank paragraph
texts in order. -/
def targetContent (target : DocxDocument) : List String :=
  (target.paragraphs.filter (fun p => !pyBlank p.text)).map (fun p => p.text)

/-- `apply_formatting_to_docx`: margins first, then the oracle call; on
failure, one reported error and no document; on success, one output
paragraph per content block, in order, rendered by role.  The result pairs
the returned document (if any) with the list of errors reported to the UI. -/
def apply_formatting_to_docx (target : DocxDocument) (fmt : Formatting)
    (oracle : Except String String) (colorOk : Nat → Bool) :
    Option NewDoc × List String :=
  let content := targetContent target
  let base := applyMargins fmt.overallStyle.margins defaultNewDoc
  match oracle with
  | .error e => (none, ["Error using OpenAI API: " ++ e])
  | .ok resp =>
    let lines := splitLines (lowerL resp.data)
    let classified := classifyBlocks lines content
    (some { base with paragraphs := classified.map (renderBlock fmt colorOk) }, [])

/-- The styling fields of an output paragraph (everything but its text). -/
def stylingOf (p : OutPara) :
    Option Alignment × Option String × Option Bool × Option Bool ×
      Option String × Option Rat × Option Nat :=
  (p.alignment, p.style, p.bold, p.italic, p.fontName, p.fontSize, p.color)

/-- A run property entry erased of its underline flag (never read in synthesis). -/
def eraseUnderline (r : RunProps) : RunProps := { r with underline := none }

/-- A style sample erased of the underline flags of its run properties. -/
def sampleObs (s : StyleSample) : StyleSample :=
  { s with fontProperties := s.fontProperties.map eraseUnderline }

/-- Everything of a profile that synthesis can observe: heading and body
samples (without underline flags) and the margins; the default font
name/size and the table samples are dropped. -/
def profileObs (f : Formatting) :
    List StyleSample × List StyleSample × MarginsInfo :=
  (f.headings.map sampleObs, f.paragraphs.map sampleObs, f.overallStyle.margins)

/-- A profile whose top margin is explicitly present with value 0 inches. -/
def c4Fmt : Formatting :=
  { paragraphs := [], headings := [], tables := []
    overallStyle :=
      { defaultFont := none, defaultFontSize := none
        margins := { top := some 0, bottom := none, left := none, right := none } } }

/-- An empty target document. -/
def c4Target : DocxDocument :=
  { paragraphs := [], tables := [], sections := [], styles := [] }

/-- A paragraph sample whose style name exists among the new document's styles. -/
def c5Sample : StyleSample :=
  { text := "ref", alignment := none, styleName := "Heading 1", fontProperties := [] }

/-- A run property entry carrying a colour value. -/
def c7Fp : RunProps :=
  { text := "r", bold := none, italic := none, underline := none
    fontName := none, fontSize := none, color := some 5 }

/-- A style sample whose first run carries a colour value. -/
def c7Ref : StyleSample :=
  { text := "ref", alignment := none, styleName := "Normal", fontProperties := [c7Fp] }

/-- An empty target document for the colour-failure witness. -/
def c7Target : DocxDocument :=
  { paragraphs := [], tables := [], sections := [], styles := [] }

/-- A profile whose heading and body samples carry the colour value 5. -/
def c7Fmt : Formatting :=
  { paragraphs := [c7Ref], headings := [c7Ref], tables := []
    overallStyle :=
      { defaultFont := none, defaultFontSize := none
        margins := { top := none, bottom := none, left := none, right := none } } }

/-- A reference paragraph carrying a "Heading 1" style. -/
def c8HeadPara : ParaData :=
  { text := "Title", alignment := none, styleName := some "Heading 1", runs := [] }

/-- A reference paragraph with no explicit style. -/
def c8BodyPara : ParaData :=
  { text := "Some body text", alignment := none, styleName := none, runs := [] }

/-- A reference document with one heading and one body paragraph. -/
def c8Doc : DocxDocument :=
  { paragraphs := [c8HeadPara, c8BodyPara], tables := [], sections := [], styles := [] }

/-- A reference document with no sections and no styles. -/
def c9DocEmpty : DocxDocument :=
  { paragraphs := [], tables := [], sections := [], styles := [] }

/-- The "Normal" style of `c9DocNoSize`: a font name but no explicit size. -/
def c9NormalStyle : StyleDef :=
  { name := "Normal", fontName := some "Calibri", fontSizePt := none }

/-- A reference document whose "Normal" style has no explicit font size. -/
def c9DocNoSize : DocxDocument :=
  { paragraphs := [], tables := [], sections := [], styles := [c9NormalStyle] }

/-- A body sample with an underlined run, for the noninterference witness. -/
def c10Sample1 : StyleSample :=
  { text := "s", alignment := some Alignment.center, styleName := "Normal"
    fontProperties :=
      [{ text := "s", bold := some true, italic := none, underline := some true
         fontName := some "Arial", fontSize := some 12, color := some 255 }] }

/-- `c10Sample1` with the underline flag absent instead. -/
def c10Sample2 : StyleSample :=
  { text := "s", alignment := some Alignment.center, styleName := "Normal"
    fontProperties :=
      [{ text := "s", bold := some true, italic := none, underline := none
         fontName := some "Arial", fontSize := some 12, color := some 255 }] }

/-- A profile with underline flags, default font data and a table sample. -/
def c10F1 : Formatting :=
  { paragraphs := [c10Sample1], headings := [c10Sample1]
    tables := [{ rows := 1, cols := 1, cellStyles := [("c", none)] }]
    overallStyle :=
      { defaultFont := some "Arial", defaultFontSize := some 10
        margins := { top := some 2, bottom := none, left := none, right := none } } }

/-- `c10F1` with underline flags, default font data and table samples removed. -/
def c10F2 : Formatting :=
  { paragraphs := [c10Sample2], headings := [c10Sample2], tables := []
    overallStyle :=
      { defaultFont := none, defaultFontSize := none
        margins := { top := some 2, bottom := none, left := none, right := none } } }

/-- A one-paragraph target document for the noninterference witness. -/
def c10Target : DocxDocument :=
  { paragraphs := [{ text := "Hello world", alignment := none, styleName := none, runs := [] }]
    tables := [], sections := [], styles := [] }

/-! ## Helper lemmas -/

theorem applyFontProps_text (fps : List RunProps) (c : Nat → Bool) (b : OutPara) :
    (applyFontProps fps c b).text = b.text := by
  cases fps <;> rfl

theorem renderHeading_text (hs : List StyleSample) (c : Nat → Bool) (t : String) :
    (renderHeading hs c t).text = t := by
  cases hs <;> simp [renderHeading, applyFontProps_text, plainOut]

theorem renderBody_text (ps : List StyleSample) (c : Nat → Bool) (t : String) :
    (renderBody ps c t).text = t := by
  cases ps <;> simp [renderBody, applyFontProps_text, plainOut]

theorem renderBlock_text (fmt : Formatting) (c : Nat → Bool) (rt : Role × String) :
    (renderBlock fmt c rt).text = rt.2 := by
  obtain ⟨r, t⟩ := rt
  cases r
  · exact renderHeading_text _ _ _
  · exact renderBody_text _ _ _

theorem classifyFrom_render_texts (fmt : Formatting) (colorOk : Nat → Bool)
    (lines : List (List Char)) (ts : List String) :
    ∀ i : Nat,
      ((classifyFrom lines i ts).map (renderBlock fmt colorOk)).map OutPara.text = ts := by
  induction ts with
  | nil => intro i; rfl
  | cons t ts ih => intro i; simp [classifyFrom, renderBlock_text, ih]

theorem classifyFrom_getElem (lines : List (List Char)) (ts : List String) :
    ∀ j k : Nat,
      (classifyFrom lines j ts)[k]?
        = (ts[k]?).map (fun t => (classifyOne lines (j + k) t, t)) := by
  induction ts with
  | nil => intro j k; simp [classifyFrom]
  | cons t ts ih =>
    intro j k
    cases k with
    | zero => simp [classifyFrom]
    | succ k =>
      have harith : j + (k + 1) = (j + 1) + k := by omega
      simp [classifyFrom, ih (j + 1) k, harith]

theorem isHeadingPara_eq_sample (p : ParaData) :
    isHeadingPara p = pyIn "Heading" (extractSample p).styleName := by
  cases h : p.styleName with
  | none =>
    simp only [isHeadingPara, extractSample, h]
    decide
  | some n => simp [isHeadingPara, extractSample, h]

theorem applyFontProps_obs (l1 l2 : List RunProps)
    (h : l1.map eraseUnderline = l2.map eraseUnderline) (c : Nat → Bool)
    (b : OutPara) : applyFontProps l1 c b = applyFontProps l2 c b := by
  cases l1 with
  | nil =>
    cases l2 with
    | nil => rfl
    | cons f2 t2 => simp at h
  | cons f1 t1 =>
    cases l2 with
    | nil => simp at h
    | cons f2 t2 =>
      simp only [List.map_cons, List.cons.injEq] at h
      obtain ⟨hh, -⟩ := h
      obtain ⟨tx1, b1, i1, u1, n1, s1, k1⟩ := f1
      obtain ⟨tx2, b2, i2, u2, n2, s2, k2⟩ := f2
      simp only [eraseUnderline, RunProps.mk.injEq] at hh
      obtain ⟨-, hb, hi, -, hn, hs, hk⟩ := hh
      simp [applyFontProps, hb, hi, hn, hs, hk]

theorem renderHeading_obs (l1 l2 : List StyleSample)
    (h : l1.map sampleObs = l2.map sampleObs) (c : Nat → Bool) (t : String) :
    renderHeading l1 c t = renderHeading l2 c t := by
  cases l1 with
  | nil =>
    cases l2 with
    | nil => rfl
    | cons b2 t2 => simp at h
  | cons a1 t1 =>
    cases l2 with
    | nil => simp at h
    | cons a2 t2 =>
      simp only [List.map_cons, List.cons.injEq] at h
      obtain ⟨hh, -⟩ := h
      obtain ⟨st1, al1, sn1, fp1⟩ := a1
      obtain ⟨st2, al2, sn2, fp2⟩ := a2
      simp only [sampleObs, StyleSample.mk.injEq] at hh
      obtain ⟨-, ha, hsn, hfp⟩ := hh
      subst ha
      subst hsn
      simp only [renderHeading]
      exact applyFontProps_obs _ _ hfp c _

theorem renderBody_obs (l1 l2 : List StyleSample)
    (h : l1.map sampleObs = l2.map sampleObs) (c : Nat → Bool) (t : String) :
    renderBody l1 c t = renderBody l2 c t := by
  cases l1 with
  | nil =>
    cases l2 with
    | nil => rfl
    | cons b2 t2 => simp at h
  | cons a1 t1 =>
    cases l2 with
    | nil => simp at h
    | cons a2 t2 =>
      simp only [List.map_cons, List.cons.injEq] at h
      obtain ⟨hh, -⟩ := h
      obtain ⟨st1, al1, sn1, fp1⟩ := a1
      obtain ⟨st2, al2, sn2, fp2⟩ := a2
      simp only [sampleObs, StyleSample.mk.injEq] at hh
      obtain ⟨-, ha, hsn, hfp⟩ := hh
      subst ha
      subst hsn
      simp only [renderBody]
      exact applyFontProps_obs _ _ hfp c _

/-! ## Claim theorems -/

/-- C1: with a non-empty `headingSamples`, every Heading block is rendered
from `headingSamples[0]` alone: the samples past the first are never
consulted, the styling (everything but the text) is the same for every
heading block of the run, the applied alignment is the first sample's, and
the applied style is the one chosen from the first sample. -/
theorem c1_heading_style_uniformity (h : StyleSample) (rest rest' : List StyleSample)
    (colorOk : Nat → Bool) (t t1 t2 : String) :
    renderHeading (h :: rest) colorOk t = renderHeading (h :: rest') colorOk t
    ∧ stylingOf (renderHeading (h :: rest) colorOk t1)
        = stylingOf (renderHeading (h :: rest) colorOk t2)
    ∧ (renderHeading (h :: rest) colorOk t).alignment = h.alignment
    ∧ (renderHeading (h :: rest) colorOk t).style = headingStyleChoice h := by
  obtain ⟨ht, ha, hsn, hfps⟩ := h
  refine ⟨rfl, ?_, ?_, ?_⟩ <;> cases hfps <;> rfl

/-- C2: a block whose lowercased 20-character text head occurs in no line of
the lowercased oracle response, and whose index is at least the number of
response lines, is classified Body — both for the single-block classifier
and inside the classification of a whole content list. -/
theorem c2_role_fallback_body (resp : String) (i : Nat) (t : String)
    (content : List String)
    (hline : ∀ line ∈ splitLines (lowerL resp.data),
        containsSub (lowerL (t.data.take 20)) (lowerL line) = false)
    (hidx : (splitLines (lowerL resp.data)).length ≤ i)
    (hat : content[i]? = some t) :
    classifyOne (splitLines (lowerL resp.data)) i t = Role.body
    ∧ (classifyBlocks (splitLines (lowerL resp.data)) content)[i]?
        = some (Role.body, t) := by
  have hfind :
      (splitLines (lowerL resp.data)).find?
          (fun line => containsSub (lowerL (t.data.take 20)) (lowerL line)) = none := by
    rw [List.find?_eq_none]
    intro x hx
    simp [hline x hx]
  have hget : (splitLines (lowerL resp.data))[i]? = none := by
    rw [List.getElem?_eq_none_iff]
    exact hidx
  have hone : classifyOne (splitLines (lowerL resp.data)) i t = Role.body := by
    simp only [classifyOne, hfind, hget]
  refine ⟨hone, ?_⟩
  rw [classifyBlocks, classifyFrom_getElem, hat]
  simp [hone]

/-- C2 witness: the Body fallback at a concrete one-line response, a block
text matching no line, and an index past the response's last line. -/
theorem c2_witness :
    classifyOne (splitLines (lowerL "ok".data)) 3 "Introduction" = Role.body
    ∧ (classifyBlocks (splitLines (lowerL "ok".data))
        ["a", "b", "c", "Introduction"])[3]? = some (Role.body, "Introduction") :=
  c2_role_fallback_body "ok" 3 "Introduction" ["a", "b", "c", "Introduction"]
    (by decide) (by decide) (by decide)

/-- C3: on a successful oracle call, the synthesized paragraphs' texts are
exactly the non-blank paragraph texts of the target document, in order. -/
theorem c3_order_preservation (target : DocxDocument) (fmt : Formatting)
    (resp : String) (colorOk : Nat → Bool) :
    (apply_formatting_to_docx target fmt (Except.ok resp) colorOk).1.map
        (fun d => d.paragraphs.map OutPara.text)
      = some (targetContent target)
    ∧ targetContent target
      = (target.paragraphs.filter (fun p => !pyBlank p.text)).map ParaData.text := by
  refine ⟨?_, rfl⟩
  simp only [apply_formatting_to_docx, Option.map_some', classifyBlocks]
  rw [classifyFrom_render_texts]

/-- C4 counterexample: a profile whose top margin is present with value 0
inches does not have that margin applied — the synthesized document keeps
the fresh document's default 1-inch top margin, contradicting the claim
that a present value of 0 is applied. -/
theorem c4_counterexample :
    c4Fmt.overallStyle.margins.top = some 0
    ∧ (apply_formatting_to_docx c4Target c4Fmt (Except.ok "x") (fun _ => true)).1.map
        NewDoc.topMargin = some 1
    ∧ (1 : Rat) ≠ 0 := by
  refine ⟨rfl, rfl, by norm_num⟩

/-- C4 amended: each of the four margins of the synthesized document equals
the profile's value when that value is present and nonzero, and stays at the
fresh document's 1-inch default when the value is absent **or present with
value 0** (Python truthiness); this is independent of the target content and
of the oracle response. -/
theorem c4_amended_margins (target : DocxDocument) (fmt : Formatting)
    (resp : String) (colorOk : Nat → Bool) :
    (apply_formatting_to_docx target fmt (Except.ok resp) colorOk).1.map
        NewDoc.topMargin = some (marginOf fmt.overallStyle.margins.top 1)
    ∧ (apply_formatting_to_docx target fmt (Except.ok resp) colorOk).1.map
        NewDoc.bottomMargin = some (marginOf fmt.overallStyle.margins.bottom 1)
    ∧ (apply_formatting_to_docx target fmt (Except.ok resp) colorOk).1.map
        NewDoc.leftMargin = some (marginOf fmt.overallStyle.margins.left 1)
    ∧ (apply_formatting_to_docx target fmt (Except.ok resp) colorOk).1.map
        NewDoc.rightMargin = some (marginOf fmt.overallStyle.margins.right 1) :=
  ⟨rfl, rfl, rfl, rfl⟩

/-- C5 counterexample: a body sample whose style name ("Heading 1") does
exist among the new document's styles still yields a body paragraph with no
explicit style set, contradicting the claim that the sample's style name is
applied to Body blocks. -/
theorem c5_counterexample :
    newDocStyleNames.contains c5Sample.styleName = true
    ∧ (renderBody [c5Sample] (fun _ => true) "hello").style = none
    ∧ (renderBody [c5Sample] (fun _ => true) "hello").style ≠ some c5Sample.styleName := by
  refine ⟨by decide, rfl, by decide⟩

/-- C5 amended: a Body block with a non-empty `paragraphSamples` is rendered
by exactly the Heading procedure on the first sample **except that no named
style is ever set** (the style field is `none`); with no sample it is a
plain paragraph. -/
theorem c5_amended_body_rendering (ref : StyleSample) (rest hs : List StyleSample)
    (colorOk : Nat → Bool) (t : String) :
    renderBody (ref :: rest) colorOk t
        = { renderHeading (ref :: hs) colorOk t with style := none }
    ∧ renderBody [] colorOk t = plainOut t := by
  constructor
  · obtain ⟨rt, ra, rs, rfps⟩ := ref
    cases rfps <;> rfl
  · rfl

/-- C6: an oracle failure produces no document at all and exactly one
reported error, with no partial output. -/
theorem c6_oracle_failure_all_or_nothing (target : DocxDocument) (fmt : Formatting)
    (e : String) (colorOk : Nat → Bool) :
    apply_formatting_to_docx target fmt (Except.error e) colorOk
        = (none, ["Error using OpenAI API: " ++ e])
    ∧ (apply_formatting_to_docx target fmt (Except.error e) colorOk).2.length = 1 :=
  ⟨rfl, rfl⟩

/-- C7: a colour value the new document rejects never aborts synthesis and
is never reported: the run still returns a document and an empty error list,
and the affected run's colour is simply left unset. -/
theorem c7_color_failure_silent (target : DocxDocument) (fmt : Formatting)
    (resp : String) (colorOk : Nat → Bool) (ref : StyleSample)
    (rest : List StyleSample) (fp : RunProps) (fps : List RunProps)
    (t : String) (c : Nat) (hfp : ref.fontProperties = fp :: fps)
    (hc : fp.color = some c) (hbad : colorOk c = false) :
    ((apply_formatting_to_docx target fmt (Except.ok resp) colorOk).1).isSome = true
    ∧ (apply_formatting_to_docx target fmt (Except.ok resp) colorOk).2 = []
    ∧ (renderHeading (ref :: rest) colorOk t).color = none
    ∧ (renderBody (ref :: rest) colorOk t).color = none := by
  refine ⟨rfl, rfl, ?_, ?_⟩
  · simp [renderHeading, hfp, applyFontProps, hc, hbad, plainOut]
  · simp [renderBody, hfp, applyFontProps, hc, hbad, plainOut]

/-- C7 witness: the colour-failure claim at a concrete profile, target,
response and rejecting colour setter. -/
theorem c7_witness :
    ((apply_formatting_to_docx c7Target c7Fmt (Except.ok "x") (fun _ => false)).1).isSome = true
    ∧ (apply_formatting_to_docx c7Target c7Fmt (Except.ok "x") (fun _ => false)).2 = []
    ∧ (renderHeading (c7Ref :: []) (fun _ => false) "t").color = none
    ∧ (renderBody (c7Ref :: []) (fun _ => false) "t").color = none :=
  c7_color_failure_silent c7Target c7Fmt "x" (fun _ => false) c7Ref [] c7Fp [] "t" 5
    rfl rfl rfl

/-- C8: a non-blank reference paragraph's sample lands in `headings` exactly
when its resolved style name contains "Heading" (case-sensitively), in
`paragraphs` exactly otherwise, and the resolved name defaults to "Normal"
when the paragraph has no style. -/
theorem c8_heading_classification (doc : DocxDocument) (p : ParaData)
    (hmem : p ∈ doc.paragraphs) (hnb : pyBlank p.text = false) :
    (extractSample p ∈ (extract_formatting_from_docx doc).headings
        ↔ pyIn "Heading" (extractSample p).styleName = true)
    ∧ (extractSample p ∈ (extract_formatting_from_docx doc).paragraphs
        ↔ pyIn "Heading" (extractSample p).styleName = false)
    ∧ (p.styleName = none → (extractSample p).styleName = "Normal") := by
  have hpnb : p ∈ doc.paragraphs.filter (fun q => !pyBlank q.text) :=
    List.mem_filter.mpr ⟨hmem, by simp [hnb]⟩
  refine ⟨⟨?_, ?_⟩, ⟨?_, ?_⟩, ?_⟩
  · intro hin
    simp only [extract_formatting_from_docx] at hin
    obtain ⟨q, hq, hEq⟩ := List.mem_map.mp hin
    have hqh : isHeadingPara q = true := (List.mem_filter.mp hq).2
    rw [isHeadingPara_eq_sample, hEq] at hqh
    exact hqh
  · intro hpy
    have hph : isHeadingPara p = true := by
      rw [isHeadingPara_eq_sample]; exact hpy
    simp only [extract_formatting_from_docx]
    exact List.mem_map_of_mem extractSample (List.mem_filter.mpr ⟨hpnb, hph⟩)
  · intro hin
    simp only [extract_formatting_from_docx] at hin
    obtain ⟨q, hq, hEq⟩ := List.mem_map.mp hin
    have hqh : (!isHeadingPara q) = true := (List.mem_filter.mp hq).2
    rw [Bool.not_eq_true'] at hqh
    rw [isHeadingPara_eq_sample, hEq] at hqh
    exact hqh
  · intro hpy
    have hph : (!isHeadingPara p) = true := by
      rw [Bool.not_eq_true', isHeadingPara_eq_sample]; exact hpy
    simp only [extract_formatting_from_docx]
    exact List.mem_map_of_mem extractSample (List.mem_filter.mpr ⟨hpnb, hph⟩)
  · intro h
    simp [extractSample, h]

/-- C8 witness: the classification claim at a concrete two-paragraph
reference document, applied to its "Heading 1"-styled paragraph. -/
theorem c8_witness :
    (extractSample c8HeadPara ∈ (extract_formatting_from_docx c8Doc).headings
        ↔ pyIn "Heading" (extractSample c8HeadPara).styleName = true)
    ∧ (extractSample c8HeadPara ∈ (extract_formatting_from_docx c8Doc).paragraphs
        ↔ pyIn "Heading" (extractSample c8HeadPara).styleName = false)
    ∧ (c8HeadPara.styleName = none → (extractSample c8HeadPara).styleName = "Normal") :=
  c8_heading_classification c8Doc c8HeadPara (by decide) (by decide)

/-- C9: a reference with no sections extracts all four margins as absent;
a missing "Normal" style extracts both default font fields as absent; a
"Normal" style without an explicit font size extracts the default size as
absent — never zero or a hardcoded value. -/
theorem c9_absent_not_zero (doc : DocxDocument) :
    (doc.sections = [] →
      (extract_formatting_from_docx doc).overallStyle.margins
        = { top := none, bottom := none, left := none, right := none })
    ∧ (findStyle doc.styles "Normal" = none →
        (extract_formatting_from_docx doc).overallStyle.defaultFont = none
        ∧ (extract_formatting_from_docx doc).overallStyle.defaultFontSize = none)
    ∧ (∀ st : StyleDef, findStyle doc.styles "Normal" = some st →
        st.fontSizePt = none →
        (extract_formatting_from_docx doc).overallStyle.defaultFontSize = none) := by
  refine ⟨?_, ?_, ?_⟩
  · intro h
    simp [extract_formatting_from_docx, h]
  · intro h
    constructor <;> simp [extract_formatting_from_docx, h]
  · intro st h hsz
    simp [extract_formatting_from_docx, h, hsz]

/-- C9 witness: the absence claims at a sectionless style-less document and
at a document whose "Normal" style has no explicit size. -/
theorem c9_witness :
    (extract_formatting_from_docx c9DocEmpty).overallStyle.margins
        = { top := none, bottom := none, left := none, right := none }
    ∧ (extract_formatting_from_docx c9DocEmpty).overallStyle.defaultFont = none
    ∧ (extract_formatting_from_docx c9DocEmpty).overallStyle.defaultFontSize = none
    ∧ (extract_formatting_from_docx c9DocNoSize).overallStyle.defaultFontSize = none :=
  ⟨(c9_absent_not_zero c9DocEmpty).1 rfl,
   ((c9_absent_not_zero c9DocEmpty).2.1 rfl).1,
   ((c9_absent_not_zero c9DocEmpty).2.1 rfl).2,
   (c9_absent_not_zero c9DocNoSize).2.2 c9NormalStyle rfl rfl⟩

/-- C10: two profiles that agree after dropping the default font name, the
default font size, the run underline flags and the table samples produce
identical synthesis results on every target, oracle outcome and colour
setter: those fields are extracted but never read during synthesis. -/
theorem c10_unused_fields_noninterference (f1 f2 : Formatting)
    (h : profileObs f1 = profileObs f2) (target : DocxDocument)
    (oracle : Except String String) (colorOk : Nat → Bool) :
    apply_formatting_to_docx target f1 oracle colorOk
      = apply_formatting_to_docx target f2 oracle colorOk := by
  have hh : f1.headings.map sampleObs = f2.headings.map sampleObs :=
    congrArg (fun x => x.1) h
  have hp : f1.paragraphs.map sampleObs = f2.paragraphs.map sampleObs :=
    congrArg (fun x => x.2.1) h
  have hm : f1.overallStyle.margins = f2.overallStyle.margins :=
    congrArg (fun x => x.2.2) h
  have hrb : renderBlock f1 colorOk = renderBlock f2 colorOk := by
    funext rt
    obtain ⟨r, t⟩ := rt
    cases r
    · exact renderHeading_obs _ _ hh colorOk t
    · exact renderBody_obs _ _ hp colorOk t
  cases oracle with
  | error e => rfl
  | ok resp => simp only [apply_formatting_to_docx, hm, hrb]

/-- C10 witness: a profile with an underline flag, default font data and a
table sample synthesizes identically to its stripped counterpart on a
concrete target and response. -/
theorem c10_witness :
    apply_formatting_to_docx c10Target c10F1 (Except.ok "heading") (fun _ => true)
      = apply_formatting_to_docx c10Target c10F2 (Except.ok "heading") (fun _ => true) :=
  c10_unused_fields_noninterference c10F1 c10F2 (by decide) c10Target
    (Except.ok "heading") (fun _ => true)

end FormatDocs
